import Mathlib

/-!
Verification of the command-bridge core of `xray-desktop/src-tauri/src/main.rs`.

The Rust source delegates UI commands to a backend process: it spawns
`node <script> <action> <payload-json>`, captures stdout/stderr, and classifies
the result (`run_bridge`).  We embed the data model (`BridgeResponse`, JSON
values), the byte-level stream decoding (`String::from_utf8`,
`String::from_utf8_lossy`, `str::trim`), the `serde_json` parse of the response
envelope, and the classification logic, then prove the spec's claims about it.

The backend process itself is external: we model it as an oracle mapping the
two command-line arguments `(action, payload_json)` to the pair of captured
output byte streams.
-/

/-- JSON values, as `serde_json::Value`.  Numbers are kept as their source
token (no claim depends on numeric semantics); objects are field lists in the
order the map iterates them. -/
inductive Json where
  | null : Json
  | bool (b : Bool) : Json
  | num (token : String) : Json
  | str (s : String) : Json
  | arr (elems : List Json) : Json
  | obj (fields : List (String × Json)) : Json

/-- The envelope struct the Rust code derives `Deserialize` for:
`struct BridgeResponse { ok: bool, data: Option<Value>, error: Option<String> }`. -/
structure BridgeResponse where
  ok : Bool
  data : Option Json
  error : Option String

/-! ## Byte-stream decoding (Rust `core::str` UTF-8 validation) -/

/-- A UTF-8 continuation byte: `0x80 ..= 0xBF`. -/
def isCont (b : Nat) : Bool := 0x80 ≤ b && b ≤ 0xBF

/-- Decode one UTF-8 scalar from the front of the byte list.
Returns `.ok (codepoint, bytesConsumed, rest)` or `.error errorLen` where
`errorLen` mirrors `Utf8Error::error_len`: `some n` for an invalid sequence of
`n` bytes, `none` for an incomplete sequence at end of input. -/
def utf8DecodeOne : List Nat → Except (Option Nat) (Nat × Nat × List Nat)
  | [] => .error (some 0)  -- unreachable: callers only decode non-empty input
  | b :: rest =>
    if b ≤ 0x7F then .ok (b, 1, rest)
    else if 0xC2 ≤ b && b ≤ 0xDF then
      match rest with
      | [] => .error none
      | b1 :: r1 =>
        if isCont b1 then .ok (((b - 0xC0) <<< 6) + (b1 - 0x80), 2, r1)
        else .error (some 1)
    else if 0xE0 ≤ b && b ≤ 0xEF then
      match rest with
      | [] => .error none
      | b1 :: r1 =>
        let contOk :=
          if b = 0xE0 then 0xA0 ≤ b1 && b1 ≤ 0xBF
          else if b = 0xED then 0x80 ≤ b1 && b1 ≤ 0x9F
          else isCont b1
        if contOk then
          match r1 with
          | [] => .error none
          | b2 :: r2 =>
            if isCont b2 then
              .ok (((b - 0xE0) <<< 12) + ((b1 - 0x80) <<< 6) + (b2 - 0x80), 3, r2)
            else .error (some 2)
        else .error (some 1)
    else if 0xF0 ≤ b && b ≤ 0xF4 then
      match rest with
      | [] => .error none
      | b1 :: r1 =>
        let contOk :=
          if b = 0xF0 then 0x90 ≤ b1 && b1 ≤ 0xBF
          else if b = 0xF4 then 0x80 ≤ b1 && b1 ≤ 0x8F
          else isCont b1
        if contOk then
          match r1 with
          | [] => .error none
          | b2 :: r2 =>
            if isCont b2 then
              match r2 with
              | [] => .error none
              | b3 :: r3 =>
                if isCont b3 then
                  .ok (((b - 0xF0) <<< 18) + ((b1 - 0x80) <<< 12)
                        + ((b2 - 0x80) <<< 6) + (b3 - 0x80), 4, r3)
                else .error (some 3)
            else .error (some 2)
        else .error (some 1)
    else .error (some 1)

/-- Rendering of Rust's `Utf8Error` `Display` impl (which `FromUtf8Error`
forwards to): `valid_up_to` plus the optional `error_len`. -/
def utf8ErrorMsg (validUpTo : Nat) : Option Nat → String
  | some n => s!"invalid utf-8 sequence of {n} bytes from index {validUpTo}"
  | none => s!"incomplete utf-8 byte sequence from index {validUpTo}"

/-- `String::from_utf8` — strict UTF-8 decoding of a byte vector; on invalid
input fails with the `FromUtf8Error` display string. -/
def fromUtf8 (bytes : List Nat) : Except String String :=
  go (bytes.length + 1) 0 bytes []
where
  go : Nat → Nat → List Nat → List Char → Except String String
    | 0, idx, _, _ => .error (utf8ErrorMsg idx (some 1))  -- unreachable, fuel suffices
    | _ + 1, _, [], acc => .ok ⟨acc.reverse⟩
    | fuel + 1, idx, bs@(_ :: _), acc =>
      match utf8DecodeOne bs with
      | .ok (cp, n, rest) => go fuel (idx + n) rest (Char.ofNat cp :: acc)
      | .error errLen => .error (utf8ErrorMsg idx errLen)

/-- `String::from_utf8_lossy` — total decoding; each maximal invalid subpart
(`error_len` bytes, or the incomplete tail) becomes one U+FFFD. -/
def fromUtf8Lossy (bytes : List Nat) : String :=
  go (bytes.length + 1) bytes []
where
  go : Nat → List Nat → List Char → String
    | 0, _, acc => ⟨acc.reverse⟩  -- unreachable, fuel suffices
    | _ + 1, [], acc => ⟨acc.reverse⟩
    | fuel + 1, bs@(_ :: _), acc =>
      match utf8DecodeOne bs with
      | .ok (cp, _, rest) => go fuel rest (Char.ofNat cp :: acc)
      | .error (some n) => go fuel (bs.drop n) ('�' :: acc)
      | .error none => ⟨(('�' :: acc)).reverse⟩

/-- The Unicode `White_Space` property, as used by Rust's `char::is_whitespace`
(and hence `str::trim`). -/
def rustIsWhitespace (c : Char) : Bool :=
  let n := c.toNat
  (0x09 ≤ n && n ≤ 0x0D) || n = 0x20 || n = 0x85 || n = 0xA0 || n = 0x1680 ||
  (0x2000 ≤ n && n ≤ 0x200A) || n = 0x2028 || n = 0x2029 || n = 0x202F ||
  n = 0x205F || n = 0x3000

/-- Rust `str::trim`: strip leading and trailing whitespace characters. -/
def rustTrim (s : String) : String :=
  ⟨((s.toList.dropWhile rustIsWhitespace).reverse.dropWhile rustIsWhitespace).reverse⟩

/-! ## `serde_json::from_str` — textual JSON parsing -/

/-- JSON insignificant whitespace (serde_json accepts exactly these four). -/
def jsonWs (c : Char) : Bool := c = ' ' || c = '\t' || c = '\n' || c = '\r'

/-- Skip insignificant whitespace. -/
def skipWs : List Char → List Char
  | [] => []
  | c :: cs => if jsonWs c then skipWs cs else c :: cs

/-- Value of one hex digit, if any (`0-9`, `a-f`, `A-F` by code point). -/
def hexVal (c : Char) : Option Nat :=
  let n := c.toNat
  if 0x30 ≤ n ∧ n ≤ 0x39 then some (n - 0x30)
  else if 0x61 ≤ n ∧ n ≤ 0x66 then some (n - 0x57)
  else if 0x41 ≤ n ∧ n ≤ 0x46 then some (n - 0x37)
  else none

/-- Parse exactly four hex digits of a `\u` escape. -/
def parseHex4 : List Char → Except String (Nat × List Char)
  | a :: b :: c :: d :: rest =>
    match hexVal a, hexVal b, hexVal c, hexVal d with
    | some x, some y, some z, some w => .ok (((x * 16 + y) * 16 + z) * 16 + w, rest)
    | _, _, _, _ => .error "invalid escape"
  | _ => .error "unexpected end of hex escape"

/-- Parse the body of a JSON string literal (opening quote already consumed),
with serde_json escape handling: the eight simple escapes, `\uXXXX`, surrogate
pairs; lone surrogates and raw control characters are errors. -/
def parseStringLit : Nat → List Char → List Char → Except String (String × List Char)
  | 0, _, _ => .error "recursion limit exceeded"
  | _ + 1, [], _ => .error "EOF while parsing a string"
  | fuel + 1, c :: cs, acc =>
    if c = '"' then .ok (⟨acc.reverse⟩, cs)
    else if c = '\\' then
      match cs with
      | [] => .error "EOF while parsing a string"
      | e :: r =>
        if e = '"' then parseStringLit fuel r ('"' :: acc)
        else if e = '\\' then parseStringLit fuel r ('\\' :: acc)
        else if e = '/' then parseStringLit fuel r ('/' :: acc)
        else if e = 'b' then parseStringLit fuel r ('\x08' :: acc)
        else if e = 'f' then parseStringLit fuel r ('\x0C' :: acc)
        else if e = 'n' then parseStringLit fuel r ('\n' :: acc)
        else if e = 'r' then parseStringLit fuel r ('\r' :: acc)
        else if e = 't' then parseStringLit fuel r ('\t' :: acc)
        else if e = 'u' then
          match parseHex4 r with
          | .error msg => .error msg
          | .ok (n, r2) =>
            if 0xD800 ≤ n && n ≤ 0xDBFF then
              match r2 with
              | '\\' :: 'u' :: r3 =>
                match parseHex4 r3 with
                | .error msg => .error msg
                | .ok (m, r4) =>
                  if 0xDC00 ≤ m && m ≤ 0xDFFF then
                    parseStringLit fuel r4
                      (Char.ofNat (0x10000 + (n - 0xD800) * 0x400 + (m - 0xDC00)) :: acc)
                  else .error "lone leading surrogate in hex escape"
              | _ => .error "unexpected end of hex escape"
            else if 0xDC00 ≤ n && n ≤ 0xDFFF then
              .error "lone trailing surrogate in hex escape"
            else parseStringLit fuel r2 (Char.ofNat n :: acc)
        else .error "invalid escape"
    else if c.toNat < 0x20 then .error "control character in string"
    else parseStringLit fuel cs (c :: acc)

/-- Take the leading run of ASCII digits. -/
def takeDigits : List Char → List Char × List Char
  | [] => ([], [])
  | c :: cs =>
    if c.isDigit then
      let (d, r) := takeDigits cs
      (c :: d, r)
    else ([], c :: cs)

/-- Exponent part of a number (after the mantissa): `[eE][+-]?[0-9]+` or nothing. -/
def parseExpPart (acc : List Char) : List Char → Except String (String × List Char)
  | e :: cs =>
    if e = 'e' || e = 'E' then
      let (sign, cs1) :=
        match cs with
        | '+' :: r => (['+'], r)
        | '-' :: r => (['-'], r)
        | _ => ([], cs)
      match takeDigits cs1 with
      | ([], _) => .error "invalid number"
      | (d, r) => .ok (⟨acc ++ e :: sign ++ d⟩, r)
    else .ok (⟨acc⟩, e :: cs)
  | [] => .ok (⟨acc⟩, [])

/-- Fraction then exponent part of a number (after the integer part). -/
def parseFracPart (acc : List Char) : List Char → Except String (String × List Char)
  | '.' :: cs =>
    (match takeDigits cs with
     | ([], _) => .error "invalid number"
     | (d, r) => parseExpPart (acc ++ '.' :: d) r)
  | cs => parseExpPart acc cs

/-- Parse a JSON number token: `-?(0|[1-9][0-9]*)(\.[0-9]+)?([eE][+-]?[0-9]+)?`.
The first character is `-` or a digit. -/
def parseNumber (cs : List Char) : Except String (String × List Char) :=
  let (sign, cs1) :=
    match cs with
    | '-' :: r => (['-'], r)
    | _ => ([], cs)
  match cs1 with
  | [] => .error "EOF while parsing a value"
  | c :: r =>
    if c = '0' then parseFracPart (sign ++ ['0']) r
    else if c.isDigit then
      let (d, r2) := takeDigits r
      parseFracPart (sign ++ c :: d) r2
    else .error "invalid number"

mutual

/-- Parse one JSON value from the input (leading whitespace allowed). -/
def parseValue : Nat → List Char → Except String (Json × List Char)
  | 0, _ => .error "recursion limit exceeded"
  | fuel + 1, cs =>
    match skipWs cs with
    | [] => .error "EOF while parsing a value"
    | c :: rest =>
      if c = 'n' then
        match rest with
        | 'u' :: 'l' :: 'l' :: r => .ok (Json.null, r)
        | _ => .error "expected ident"
      else if c = 't' then
        match rest with
        | 'r' :: 'u' :: 'e' :: r => .ok (Json.bool true, r)
        | _ => .error "expected ident"
      else if c = 'f' then
        match rest with
        | 'a' :: 'l' :: 's' :: 'e' :: r => .ok (Json.bool false, r)
        | _ => .error "expected ident"
      else if c = '"' then
        match parseStringLit (rest.length + 1) rest [] with
        | .error msg => .error msg
        | .ok (s, r) => .ok (Json.str s, r)
      else if c = '-' || c.isDigit then
        match parseNumber (c :: rest) with
        | .error msg => .error msg
        | .ok (t, r) => .ok (Json.num t, r)
      else if c = '[' then
        match skipWs rest with
        | ']' :: r => .ok (Json.arr [], r)
        | r => parseElems fuel r []
      else if c = '{' then
        match skipWs rest with
        | '}' :: r => .ok (Json.obj [], r)
        | r => parseMembers fuel r []
      else .error "expected value"

/-- Parse array elements (after `[`, at least one element pending). -/
def parseElems : Nat → List Char → List Json → Except String (Json × List Char)
  | 0, _, _ => .error "recursion limit exceeded"
  | fuel + 1, cs, acc =>
    match parseValue fuel cs with
    | .error msg => .error msg
    | .ok (v, r) =>
      match skipWs r with
      | ',' :: r2 => parseElems fuel r2 (v :: acc)
      | ']' :: r2 => .ok (Json.arr (v :: acc).reverse, r2)
      | _ => .error "expected `,` or `]`"

/-- Parse object members (after `{`, at least one member pending). -/
def parseMembers : Nat → List Char → List (String × Json) →
    Except String (Json × List Char)
  | 0, _, _ => .error "recursion limit exceeded"
  | fuel + 1, cs, acc =>
    match skipWs cs with
    | '"' :: r =>
      (match parseStringLit (r.length + 1) r [] with
       | .error msg => .error msg
       | .ok (k, r2) =>
         match skipWs r2 with
         | ':' :: r3 =>
           (match parseValue fuel r3 with
            | .error msg => .error msg
            | .ok (v, r4) =>
              match skipWs r4 with
              | ',' :: r5 => parseMembers fuel r5 ((k, v) :: acc)
              | '}' :: r5 => .ok (Json.obj ((k, v) :: acc).reverse, r5)
              | _ => .error "expected `,` or `\x7d`")
         | _ => .error "expected `:`")
    | _ => .error "key must be a string"

end

/-- Parse a whole input as one JSON value, requiring only whitespace after it
(`serde_json::from_str`'s end-of-input check). -/
def parseJsonText (s : String) : Except String Json :=
  let cs := s.toList
  match parseValue (2 * cs.length + 4) cs with
  | .error msg => .error msg
  | .ok (v, rest) =>
    match skipWs rest with
    | [] => .ok v
    | _ => .error "trailing characters"

/-- serde deserialization of a `bool` field from a JSON value. -/
def deserBool : Json → Except String Bool
  | .bool b => .ok b
  | _ => .error "invalid type: expected a boolean"

/-- serde deserialization of an `Option<Value>` field: `null` is absence, any
other JSON value is accepted. -/
def deserOptValue : Json → Option Json
  | .null => none
  | v => some v

/-- serde deserialization of an `Option<String>` field: `null` is absence, a
string is accepted, anything else is a type error. -/
def deserOptString : Json → Except String (Option String)
  | .null => .ok none
  | .str s => .ok (some s)
  | _ => .error "invalid type: expected a string"

/-- `serde_json::from_str::<BridgeResponse>` applied to an already-parsed JSON
value: the derived `Deserialize` impl's map visitor.  Walks the members in
order; known fields must not repeat and must have the declared types
(`Option` fields accept `null` as absence); unknown fields are ignored;
`ok` is required, `data`/`error` default to absent. -/
def visitFields : List (String × Json) → Option Bool → Option (Option Json) →
    Option (Option String) → Except String BridgeResponse
  | [], okF, dataF, errF =>
    match okF with
    | none => .error "missing field `ok`"
    | some b => .ok ⟨b, dataF.getD none, errF.getD none⟩
  | (k, v) :: rest, okF, dataF, errF =>
    if k = "ok" then
      if okF.isSome then .error "duplicate field `ok`"
      else (deserBool v).bind fun b => visitFields rest (some b) dataF errF
    else if k = "data" then
      if dataF.isSome then .error "duplicate field `data`"
      else visitFields rest okF (some (deserOptValue v)) errF
    else if k = "error" then
      if errF.isSome then .error "duplicate field `error`"
      else (deserOptString v).bind fun s => visitFields rest okF dataF (some s)
    else visitFields rest okF dataF errF

/-- The derived `Deserialize` for `BridgeResponse` on a JSON value: an object
goes through the map visitor; serde_json also accepts a sequence of exactly
the three fields in declaration order; anything else is a type error. -/
def deserBridgeResponse : Json → Except String BridgeResponse
  | .obj fields => visitFields fields none none none
  | .arr [a, d, e] =>
    (deserBool a).bind fun b =>
      (deserOptString e).bind fun s => .ok ⟨b, deserOptValue d, s⟩
  | .arr _ => .error "invalid length"
  | _ => .error "invalid type: expected struct BridgeResponse"

/-- `serde_json::from_str::<BridgeResponse>(s)`: parse the text as one JSON
value (whole input consumed) and deserialize the struct from it. -/
def from_str (s : String) : Except String BridgeResponse :=
  match parseJsonText s with
  | .error msg => .error msg
  | .ok v => deserBridgeResponse v

/-! ## `serde_json::to_string` — serialization of payload values -/

/-- serde_json string escaping: `"`, `\`, the five short control escapes,
other control characters as `\u00XX`. -/
def escapeChar (c : Char) : List Char :=
  if c = '"' then ['\\', '"']
  else if c = '\\' then ['\\', '\\']
  else if c = '\x08' then ['\\', 'b']
  else if c = '\x0C' then ['\\', 'f']
  else if c = '\n' then ['\\', 'n']
  else if c = '\r' then ['\\', 'r']
  else if c = '\t' then ['\\', 't']
  else if c.toNat < 0x20 then
    let hexDigit (n : Nat) : Char := if n < 10 then Char.ofNat ('0'.toNat + n)
      else Char.ofNat ('a'.toNat + (n - 10))
    ['\\', 'u', '0', '0', hexDigit (c.toNat / 16), hexDigit (c.toNat % 16)]
  else [c]

/-- Serialize a string with quotes and escapes. -/
def serializeStr (s : String) : String :=
  ⟨'"' :: (s.toList.flatMap escapeChar) ++ ['"']⟩

mutual

/-- `serde_json::to_string` on a `Value` (compact form; total — serialization
of a JSON value cannot fail). -/
def Json.serialize : Json → String
  | .null => "null"
  | .bool true => "true"
  | .bool false => "false"
  | .num t => t
  | .str s => serializeStr s
  | .arr xs => "[" ++ serializeElems xs ++ "]"
  | .obj fs => "\x7b" ++ serializeMembers fs ++ "\x7d"

/-- Comma-separated array elements. -/
def serializeElems : List Json → String
  | [] => ""
  | [x] => x.serialize
  | x :: y :: xs => x.serialize ++ "," ++ serializeElems (y :: xs)

/-- Comma-separated `"key":value` members. -/
def serializeMembers : List (String × Json) → String
  | [] => ""
  | [(k, v)] => serializeStr k ++ ":" ++ v.serialize
  | (k, v) :: m :: fs => serializeStr k ++ ":" ++ v.serialize ++ "," ++ serializeMembers (m :: fs)

end

/-! ## `run_bridge` and the Tauri commands -/

/-- Lines 52–61 of `main.rs` — the classification of a decoded envelope:
`ok` → success with `data` (or null when absent); `!ok` → failure whose
message is the `error` field, else the (trimmed, non-empty) stderr text,
else the `"Unknown bridge error"` sentinel. -/
def classifyEnvelope (response : BridgeResponse) (stderr : String) :
    Except String Json :=
  if response.ok then .ok (response.data.getD Json.null)
  else
    .error (((response.error).orElse
      (fun _ => if stderr = "" then none else some stderr)).getD
        "Unknown bridge error")

/-- The two output streams captured from one backend process run
(`std::process::Output`, exit status unused by the code). -/
structure ProcOutput where
  stdout : List Nat
  stderr : List Nat

/-- The backend process, modelled as an oracle from the two command-line
arguments the code passes (`action`, serialized payload) to the captured
streams.  Spawn failure is outside the claims under study. -/
def Backend := String → String → ProcOutput

/-- A backend whose output is fixed, independent of its arguments. -/
def constBackend (so se : List Nat) : Backend := fun _ _ => ⟨so, se⟩

/-- `run_bridge(action, payload)` from `main.rs`, given the backend oracle:
serialize the payload, run the process, strictly decode stdout, lossily decode
and trim stderr, then classify: empty trimmed stdout → stderr fallback or the
"empty response" sentinel; otherwise parse the envelope (failure wrapped with
`"Invalid bridge JSON: "`); `ok` → `data` (or null); `!ok` → `error` field,
else non-empty stderr, else the "unknown error" sentinel.
(`serde_json::to_string` on a `Value` payload cannot fail, so the source's
first `map_err` has no error path to model.) -/
def run_bridge (action : String) (payload : Json) (backend : Backend) :
    Except String Json :=
  let payload_json := payload.serialize
  let output := backend action payload_json
  match fromUtf8 output.stdout with
  | .error e => .error e
  | .ok stdout =>
    let stderr := rustTrim (fromUtf8Lossy output.stderr)
    let stdout_trimmed := rustTrim stdout
    if stdout_trimmed = "" then
      if stderr = "" then .error "Bridge returned empty response"
      else .error stderr
    else
      match from_str stdout_trimmed with
      | .error e => .error ("Invalid bridge JSON: " ++ e)
      | .ok response => classifyEnvelope response stderr

/-- `importToken` command: payload `json!({ "baseUrl": baseUrl, "token": token })`
(serde_json's default map is ordered by key), success value discarded. -/
def importToken (baseUrl token : String) (backend : Backend) : Except String Unit :=
  (run_bridge "importToken"
    (Json.obj [("baseUrl", Json.str baseUrl), ("token", Json.str token)]) backend).map
    (fun _ => ())

/-- `connect` command: payload `Value::Null`. -/
def connect (backend : Backend) : Except String Json :=
  run_bridge "connect" Json.null backend

/-- `setMode` command: payload `json!({ "mode": mode })`. -/
def setMode (mode : String) (backend : Backend) : Except String Json :=
  run_bridge "setMode" (Json.obj [("mode", Json.str mode)]) backend

/-- `disconnect` command: payload `Value::Null`, success value discarded. -/
def disconnect (backend : Backend) : Except String Unit :=
  (run_bridge "disconnect" Json.null backend).map (fun _ => ())

/-- `updateDisguise` command: four fields packed into one object (key-sorted,
as serde_json's default `Map` iterates alphabetically). -/
def updateDisguise (baseUrl serverId adminApiKey : String) (disguise : Json)
    (backend : Backend) : Except String Json :=
  run_bridge "updateDisguise"
    (Json.obj [("adminApiKey", Json.str adminApiKey), ("baseUrl", Json.str baseUrl),
               ("disguise", disguise), ("serverId", Json.str serverId)]) backend

/-- `status` command: payload `Value::Null`. -/
def status (backend : Backend) : Except String Json :=
  run_bridge "status" Json.null backend

/-- ASCII text as its UTF-8 bytes (used for concrete backend outputs; every
character below must be ASCII for this to coincide with UTF-8 encoding). -/
def asciiBytes (s : String) : List Nat := s.toList.map Char.toNat

/-! ## Helper lemmas: `run_bridge` on a backend with fixed output -/

lemma run_bridge_decode_error {a : String} {p : Json} {so se : List Nat}
    {e : String} (h : fromUtf8 so = .error e) :
    run_bridge a p (constBackend so se) = .error e := by
  unfold run_bridge constBackend
  simp only [h]

lemma run_bridge_empty_stdout {a : String} {p : Json} {so se : List Nat}
    {s : String} (h : fromUtf8 so = .ok s) (h0 : rustTrim s = "") :
    run_bridge a p (constBackend so se) =
      if rustTrim (fromUtf8Lossy se) = "" then .error "Bridge returned empty response"
      else .error (rustTrim (fromUtf8Lossy se)) := by
  unfold run_bridge constBackend
  simp only [h, h0, if_pos rfl, if_true]

lemma run_bridge_parse_error {a : String} {p : Json} {so se : List Nat}
    {s e : String} (h : fromUtf8 so = .ok s) (h0 : rustTrim s ≠ "")
    (hp : from_str (rustTrim s) = .error e) :
    run_bridge a p (constBackend so se) = .error ("Invalid bridge JSON: " ++ e) := by
  unfold run_bridge constBackend
  simp only [h, hp, if_neg h0]

lemma run_bridge_envelope {a : String} {p : Json} {so se : List Nat}
    {s : String} {r : BridgeResponse} (h : fromUtf8 so = .ok s)
    (h0 : rustTrim s ≠ "") (hp : from_str (rustTrim s) = .ok r) :
    run_bridge a p (constBackend so se) =
      classifyEnvelope r (rustTrim (fromUtf8Lossy se)) := by
  unfold run_bridge constBackend
  simp only [h, hp, if_neg h0]

/-! ## Claim theorems -/

/-- C1: for every envelope parsed from the backend's trimmed stdout with
`ok = true` and a present `data` field, `run_bridge` returns success carrying
exactly that `data` value unchanged, for every captured stderr byte stream
(stderr has no influence on this outcome). -/
theorem run_bridge_success_present_data (a : String) (p : Json)
    (so se : List Nat) (s : String) (r : BridgeResponse) (d : Json)
    (h : fromUtf8 so = .ok s) (h0 : rustTrim s ≠ "")
    (hp : from_str (rustTrim s) = .ok r) (hok : r.ok = true)
    (hd : r.data = some d) :
    run_bridge a p (constBackend so se) = .ok d := by
  rw [run_bridge_envelope h h0 hp]
  simp [classifyEnvelope, hok, hd]

/-- Witness for C1: a concrete success envelope, with invalid UTF-8 on stderr. -/
theorem run_bridge_success_present_data_witness :
    run_bridge "status" Json.null
      (constBackend (asciiBytes "\x7b\"ok\":true,\"data\":\x7b\"connected\":false\x7d\x7d") [0xFF]) =
      .ok (Json.obj [("connected", Json.bool false)]) :=
  run_bridge_success_present_data "status" Json.null _ [0xFF]
    "\x7b\"ok\":true,\"data\":\x7b\"connected\":false\x7d\x7d"
    ⟨true, some (Json.obj [("connected", Json.bool false)]), none⟩
    (Json.obj [("connected", Json.bool false)]) rfl (by decide) rfl rfl rfl

/-- C2: for every envelope parsed from trimmed stdout with `ok = true` and an
absent `data` field, `run_bridge` returns success with the explicit JSON null
value, never an error. -/
theorem run_bridge_success_absent_data (a : String) (p : Json)
    (so se : List Nat) (s : String) (r : BridgeResponse)
    (h : fromUtf8 so = .ok s) (h0 : rustTrim s ≠ "")
    (hp : from_str (rustTrim s) = .ok r) (hok : r.ok = true)
    (hd : r.data = none) :
    run_bridge a p (constBackend so se) = .ok Json.null := by
  rw [run_bridge_envelope h h0 hp]
  simp [classifyEnvelope, hok, hd]

/-- Witness for C2: `{"ok":true}` yields success with null. -/
theorem run_bridge_success_absent_data_witness :
    run_bridge "connect" Json.null
      (constBackend (asciiBytes "\x7b\"ok\":true\x7d") (asciiBytes "noise")) =
      .ok Json.null :=
  run_bridge_success_absent_data "connect" Json.null _ _ "\x7b\"ok\":true\x7d"
    ⟨true, none, none⟩ rfl (by decide) rfl rfl rfl

/-- C3: for every envelope parsed from stdout with `ok = false` and a present
`error` field, `run_bridge` returns failure whose message equals that string
exactly, for every possible stderr content. -/
theorem run_bridge_declared_error (a : String) (p : Json)
    (so se : List Nat) (s : String) (r : BridgeResponse) (m : String)
    (h : fromUtf8 so = .ok s) (h0 : rustTrim s ≠ "")
    (hp : from_str (rustTrim s) = .ok r) (hok : r.ok = false)
    (he : r.error = some m) :
    run_bridge a p (constBackend so se) = .error m := by
  rw [run_bridge_envelope h h0 hp]
  simp [classifyEnvelope, hok, he, Option.orElse]

/-- Witness for C3: `{"ok":false,"error":"invalid token"}` with noisy stderr. -/
theorem run_bridge_declared_error_witness :
    run_bridge "importToken" Json.null
      (constBackend (asciiBytes "\x7b\"ok\":false,\"error\":\"invalid token\"\x7d")
        (asciiBytes "ignored diagnostics")) =
      .error "invalid token" :=
  run_bridge_declared_error "importToken" Json.null _ _
    "\x7b\"ok\":false,\"error\":\"invalid token\"\x7d"
    ⟨false, none, some "invalid token"⟩ "invalid token" rfl (by decide) rfl rfl rfl

/-- C4: for every envelope parsed from stdout with `ok = false` and an absent
`error` field, `run_bridge` returns failure whose message is the trimmed
stderr text when non-empty, and the `"Unknown bridge error"` sentinel
otherwise. -/
theorem run_bridge_error_fallback (a : String) (p : Json)
    (so se : List Nat) (s : String) (r : BridgeResponse)
    (h : fromUtf8 so = .ok s) (h0 : rustTrim s ≠ "")
    (hp : from_str (rustTrim s) = .ok r) (hok : r.ok = false)
    (he : r.error = none) :
    run_bridge a p (constBackend so se) =
      if rustTrim (fromUtf8Lossy se) = "" then .error "Unknown bridge error"
      else .error (rustTrim (fromUtf8Lossy se)) := by
  rw [run_bridge_envelope h h0 hp]
  by_cases ht : rustTrim (fromUtf8Lossy se) = "" <;>
    simp [classifyEnvelope, hok, he, Option.orElse, ht]

/-- Witness for C4: `{"ok":false}` with stderr `" disk full "` fails with
`"disk full"`. -/
theorem run_bridge_error_fallback_witness :
    run_bridge "x" Json.null
      (constBackend (asciiBytes "\x7b\"ok\":false\x7d") (asciiBytes " disk full ")) =
      if rustTrim (fromUtf8Lossy (asciiBytes " disk full ")) = ""
      then .error "Unknown bridge error"
      else .error (rustTrim (fromUtf8Lossy (asciiBytes " disk full "))) :=
  run_bridge_error_fallback "x" Json.null _ _ "\x7b\"ok\":false\x7d"
    ⟨false, none, none⟩ rfl (by decide) rfl rfl rfl

/-- C5: whenever the trimmed stdout text is empty, `run_bridge` fails: with
the trimmed stderr text when that is non-empty, else with the
`"Bridge returned empty response"` sentinel (no envelope parsing involved). -/
theorem run_bridge_empty_response (a : String) (p : Json)
    (so se : List Nat) (s : String)
    (h : fromUtf8 so = .ok s) (h0 : rustTrim s = "") :
    run_bridge a p (constBackend so se) =
      if rustTrim (fromUtf8Lossy se) = "" then .error "Bridge returned empty response"
      else .error (rustTrim (fromUtf8Lossy se)) :=
  run_bridge_empty_stdout h h0

/-- Witness for C5: whitespace-only stdout, stderr `"auth expired"`. -/
theorem run_bridge_empty_response_witness :
    run_bridge "connect" Json.null
      (constBackend (asciiBytes "  ") (asciiBytes "auth expired")) =
      if rustTrim (fromUtf8Lossy (asciiBytes "auth expired")) = ""
      then .error "Bridge returned empty response"
      else .error (rustTrim (fromUtf8Lossy (asciiBytes "auth expired"))) :=
  run_bridge_empty_response "connect" Json.null _ _ "  " rfl (by decide)

/-- C6: for every non-empty trimmed stdout text that does not parse as a
well-formed envelope, `run_bridge` fails with a message wrapping the parse
error under the `"Invalid bridge JSON: "` prefix, and never returns the raw
text (or anything) as a success value. -/
theorem run_bridge_malformed_json (a : String) (p : Json)
    (so se : List Nat) (s e : String)
    (h : fromUtf8 so = .ok s) (h0 : rustTrim s ≠ "")
    (hp : from_str (rustTrim s) = .error e) :
    run_bridge a p (constBackend so se) = .error ("Invalid bridge JSON: " ++ e) ∧
    ∀ v, run_bridge a p (constBackend so se) ≠ .ok v := by
  have hr : run_bridge a p (constBackend so se) =
      .error ("Invalid bridge JSON: " ++ e) := run_bridge_parse_error h h0 hp
  exact ⟨hr, fun v hv => by rw [hr] at hv; exact Except.noConfusion hv⟩

/-- Witness for C6: stdout `"not json"` fails with a wrapped parse error. -/
theorem run_bridge_malformed_json_witness :
    run_bridge "x" Json.null
      (constBackend (asciiBytes "not json") []) =
      .error ("Invalid bridge JSON: " ++ "expected ident") :=
  (run_bridge_malformed_json "x" Json.null (asciiBytes "not json") []
    "not json" "expected ident" rfl (by decide) rfl).1

/-- A backend that answers according to the payload text it receives as its
second argument: data `1` when the payload is exactly `{}`, data `2`
otherwise.  Used to observe which payload a dispatcher operation sends. -/
def payloadProbe : Backend := fun _ payloadJson =>
  if payloadJson = "\x7b\x7d" then ⟨asciiBytes "\x7b\"ok\":true,\"data\":1\x7d", []⟩
  else ⟨asciiBytes "\x7b\"ok\":true,\"data\":2\x7d", []⟩

/-- C7 counterexample: `status` does not call the Transport with payload `{}`.
Against a backend that distinguishes the payload text, `status` gets the
answer reserved for non-`{}` payloads, while an actual `{}`-payload call gets
the other one — so the claim's "payload the empty JSON object" is false
(the source passes `Value::Null`). -/
theorem status_payload_counterexample :
    status payloadProbe = .ok (Json.num "2") ∧
    run_bridge "status" (Json.obj []) payloadProbe = .ok (Json.num "1") :=
  ⟨rfl, rfl⟩

/-- C7 (amended): the status operation takes no arguments and calls the
Transport with action `"status"` and payload JSON `null` (serialized as
`"null"`); whenever the backend then emits
`{"ok":true,"data":{"connected":false}}` on stdout, the status call returns
the success value `{"connected": false}`. -/
theorem status_action_and_null_payload :
    (∀ backend : Backend, status backend = run_bridge "status" Json.null backend) ∧
    (∀ se, status
        (constBackend (asciiBytes "\x7b\"ok\":true,\"data\":\x7b\"connected\":false\x7d\x7d") se) =
      .ok (Json.obj [("connected", Json.bool false)])) := by
  refine ⟨fun _ => rfl, fun se => ?_⟩
  show run_bridge "status" Json.null _ = _
  have h1 : fromUtf8 (asciiBytes "\x7b\"ok\":true,\"data\":\x7b\"connected\":false\x7d\x7d") =
      .ok "\x7b\"ok\":true,\"data\":\x7b\"connected\":false\x7d\x7d" := rfl
  rw [run_bridge_envelope
    (r := ⟨true, some (Json.obj [("connected", Json.bool false)]), none⟩)
    h1 (by decide) rfl]
  rfl

/-- C8: every Dispatcher operation returns a Transport failure message to the
caller unchanged, and the two no-value operations `importToken` and
`disconnect` discard a non-error success payload, returning unit. -/
theorem dispatcher_passthrough (b : Backend) (u t o w i k : String) (g : Json) :
    (∀ m, run_bridge "importToken"
        (Json.obj [("baseUrl", Json.str u), ("token", Json.str t)]) b = .error m →
      importToken u t b = .error m) ∧
    (∀ m, run_bridge "connect" Json.null b = .error m → connect b = .error m) ∧
    (∀ m, run_bridge "setMode" (Json.obj [("mode", Json.str o)]) b = .error m →
      setMode o b = .error m) ∧
    (∀ m, run_bridge "disconnect" Json.null b = .error m →
      disconnect b = .error m) ∧
    (∀ m, run_bridge "updateDisguise"
        (Json.obj [("adminApiKey", Json.str k), ("baseUrl", Json.str w),
                   ("disguise", g), ("serverId", Json.str i)]) b = .error m →
      updateDisguise w i k g b = .error m) ∧
    (∀ m, run_bridge "status" Json.null b = .error m → status b = .error m) ∧
    (∀ v, run_bridge "importToken"
        (Json.obj [("baseUrl", Json.str u), ("token", Json.str t)]) b = .ok v →
      importToken u t b = .ok ()) ∧
    (∀ v, run_bridge "disconnect" Json.null b = .ok v → disconnect b = .ok ()) := by
  refine ⟨fun m h => ?_, fun m h => h, fun m h => h, fun m h => ?_,
          fun m h => h, fun m h => h, fun v h => ?_, fun v h => ?_⟩
  · unfold importToken; rw [h]; rfl
  · unfold disconnect; rw [h]; rfl
  · unfold importToken; rw [h]; rfl
  · unfold disconnect; rw [h]; rfl

/-- Witness for C8: a failing backend's message passes through `importToken`
unchanged; a successful `disconnect` returns unit. -/
theorem dispatcher_passthrough_witness :
    importToken "u" "t" (constBackend [] (asciiBytes "boom")) = .error "boom" ∧
    disconnect (constBackend (asciiBytes "\x7b\"ok\":true\x7d") []) = .ok () :=
  ⟨(dispatcher_passthrough (constBackend [] (asciiBytes "boom"))
      "u" "t" "o" "w" "i" "k" Json.null).1 "boom" rfl,
   (dispatcher_passthrough (constBackend (asciiBytes "\x7b\"ok\":true\x7d") [])
      "u" "t" "o" "w" "i" "k" Json.null).2.2.2.2.2.2.2 Json.null rfl⟩

/-- C9: stderr is decoded lossily and enters the outcome only through its
trimmed lossy decoding, so invalid UTF-8 bytes on stderr never by themselves
make `run_bridge` fail; invalid UTF-8 bytes on stdout always make
`run_bridge` fail with the decode error's message. -/
theorem stderr_lossy_stdout_strict (a : String) (p : Json) :
    (∀ so se t, rustTrim (fromUtf8Lossy se) = rustTrim (fromUtf8Lossy t) →
      run_bridge a p (constBackend so se) = run_bridge a p (constBackend so t)) ∧
    (∀ so se e, fromUtf8 so = .error e →
      run_bridge a p (constBackend so se) = .error e) := by
  constructor
  · intro so se t h
    unfold run_bridge constBackend
    simp only [h]
  · intro so se e h
    exact run_bridge_decode_error h

/-- Witness for C9: an invalid stderr byte behaves exactly like an encoded
replacement character; an invalid stdout byte fails with the Rust
`FromUtf8Error` message. -/
theorem stderr_lossy_stdout_strict_witness :
    run_bridge "x" Json.null (constBackend (asciiBytes "\x7b\"ok\":true\x7d") [0xFF]) =
      run_bridge "x" Json.null
        (constBackend (asciiBytes "\x7b\"ok\":true\x7d") [0xEF, 0xBF, 0xBD]) ∧
    run_bridge "x" Json.null (constBackend [0xFF, 0x41] [0x7A]) =
      .error "invalid utf-8 sequence of 1 bytes from index 0" :=
  ⟨(stderr_lossy_stdout_strict "x" Json.null).1 (asciiBytes "\x7b\"ok\":true\x7d")
      [0xFF] [0xEF, 0xBF, 0xBD] (by decide),
   (stderr_lossy_stdout_strict "x" Json.null).2 [0xFF, 0x41] [0x7A]
      "invalid utf-8 sequence of 1 bytes from index 0" rfl⟩

/-- Filtering for a key keeps a head member carrying that key. -/
lemma filter_cons_self (y : String) (v : Json) (l : List (String × Json)) :
    ((y, v) :: l).filter (fun kv => kv.1 = y) =
      (y, v) :: l.filter (fun kv => kv.1 = y) := by
  simp [List.filter_cons]

/-- Filtering for a key skips a head member carrying a different key. -/
lemma filter_cons_ne (y k : String) (v : Json) (l : List (String × Json))
    (h : k ≠ y) :
    ((k, v) :: l).filter (fun kv => kv.1 = y) = l.filter (fun kv => kv.1 = y) := by
  simp [List.filter_cons, h]

/-- A cons-list of length at most one has an empty tail after filtering. -/
lemma filter_tail_nil {x : String × Json} {l : List (String × Json)}
    {q : String × Json → Bool} (h : (x :: l.filter q).length ≤ 1) :
    l.filter q = [] := by
  rw [List.length_cons] at h
  exact List.length_eq_zero.mp (Nat.le_zero.mp (Nat.le_of_succ_le_succ h))

/-- Leniency of the map visitor: if the `ok` member is a boolean (supplied in
the list or already accumulated), `data` and `error` members occur at most
once with well-typed values, and every other member is arbitrary, the visitor
succeeds and the resulting `ok` is that boolean. -/
lemma visitFields_lenient (l : List (String × Json)) :
    ∀ (f : Option Bool) (d : Option (Option Json)) (g : Option (Option String))
      (b : Bool),
      (f = none ∧ l.filter (fun kv => kv.1 = "ok") = [("ok", Json.bool b)] ∨
        f = some b ∧ l.filter (fun kv => kv.1 = "ok") = []) →
      (d = none ∧ (l.filter (fun kv => kv.1 = "data")).length ≤ 1 ∨
        l.filter (fun kv => kv.1 = "data") = []) →
      (g = none ∧ (l.filter (fun kv => kv.1 = "error")).length ≤ 1 ∨
        l.filter (fun kv => kv.1 = "error") = []) →
      (∀ kv ∈ l, kv.1 = "error" → kv.2 = Json.null ∨ ∃ s, kv.2 = Json.str s) →
      ∃ r, visitFields l f d g = .ok r ∧ r.ok = b := by
  induction l with
  | nil =>
    intro f d g b hok _ _ _
    rcases hok with ⟨_, hbad⟩ | ⟨rfl, _⟩
    · simp at hbad
    · exact ⟨⟨b, d.getD none, g.getD none⟩, rfl, rfl⟩
  | cons kv rest ih =>
    rcases kv with ⟨k, v⟩
    intro f d g b hok hdata herr hwt
    have hwt' : ∀ kv ∈ rest, kv.1 = "error" →
        kv.2 = Json.null ∨ ∃ s, kv.2 = Json.str s :=
      fun kv h => hwt kv (List.mem_cons_of_mem _ h)
    by_cases hk1 : k = "ok"
    · subst hk1
      rw [filter_cons_self] at hok
      rw [filter_cons_ne "data" "ok" v rest (by decide)] at hdata
      rw [filter_cons_ne "error" "ok" v rest (by decide)] at herr
      rcases hok with ⟨rfl, hfil⟩ | ⟨rfl, hfil⟩
      · injection hfil with h1 h2
        have hv : v = Json.bool b := congrArg Prod.snd h1
        subst hv
        exact ih (some b) d g b (Or.inr ⟨rfl, h2⟩) hdata herr hwt'
      · exact absurd hfil (List.cons_ne_nil _ _)
    · by_cases hk2 : k = "data"
      · subst hk2
        rw [filter_cons_self] at hdata
        rw [filter_cons_ne "ok" "data" v rest (by decide)] at hok
        rw [filter_cons_ne "error" "data" v rest (by decide)] at herr
        rcases hdata with ⟨rfl, hlen⟩ | hnil
        · exact ih f (some (deserOptValue v)) g b hok
            (Or.inr (filter_tail_nil hlen)) herr hwt'
        · exact absurd hnil (List.cons_ne_nil _ _)
      · by_cases hk3 : k = "error"
        · subst hk3
          rw [filter_cons_self] at herr
          rw [filter_cons_ne "ok" "error" v rest (by decide)] at hok
          rw [filter_cons_ne "data" "error" v rest (by decide)] at hdata
          rcases herr with ⟨rfl, hlen⟩ | hnil
          · have hfil := filter_tail_nil hlen
            rcases hwt ("error", v) (List.mem_cons_self _ _) rfl with hv | ⟨s, hv⟩
            · subst hv
              exact ih f d (some none) b hok hdata (Or.inr hfil) hwt'
            · subst hv
              exact ih f d (some (some s)) b hok hdata (Or.inr hfil) hwt'
          · exact absurd hnil (List.cons_ne_nil _ _)
        · rw [filter_cons_ne "ok" k v rest hk1] at hok
          rw [filter_cons_ne "data" k v rest hk2] at hdata
          rw [filter_cons_ne "error" k v rest hk3] at herr
          have step : visitFields ((k, v) :: rest) f d g = visitFields rest f d g := by
            simp only [visitFields, if_neg hk1, if_neg hk2, if_neg hk3]
          rw [step]
          exact ih f d g b hok hdata herr hwt'

/-- C10 counterexample: `{"ok":true,"error":5}` is a JSON object containing a
boolean `ok` field, yet it does not parse as an envelope — the `error` field
is type-checked during deserialization even though `ok = true` — so
`run_bridge` turns it into a parse failure rather than a success. -/
theorem envelope_not_fully_lenient :
    from_str "\x7b\"ok\":true,\"error\":5\x7d" =
      .error "invalid type: expected a string" ∧
    run_bridge "x" Json.null
      (constBackend (asciiBytes "\x7b\"ok\":true,\"error\":5\x7d") []) =
      .error "Invalid bridge JSON: invalid type: expected a string" :=
  ⟨rfl, rfl⟩

/-- C10 (amended): envelope parsing is lenient to this extent: any JSON object
whose `ok` member is a boolean, whose `data` and `error` members (if present)
occur once and are well-typed (`data` any value, `error` a string or null),
parses as an envelope even with arbitrary extra unknown fields present; and
classification depends only on the relevant fields: when `ok = true` the
parsed `error` field is ignored and the outcome is success with `data`, and
when `ok = false` the parsed `data` field is discarded and the outcome is
failure. -/
theorem envelope_lenient_and_classification :
    (∀ (l : List (String × Json)) (b : Bool),
      l.filter (fun kv => kv.1 = "ok") = [("ok", Json.bool b)] →
      (l.filter (fun kv => kv.1 = "data")).length ≤ 1 →
      (l.filter (fun kv => kv.1 = "error")).length ≤ 1 →
      (∀ kv ∈ l, kv.1 = "error" → kv.2 = Json.null ∨ ∃ s, kv.2 = Json.str s) →
      ∃ r, deserBridgeResponse (Json.obj l) = .ok r ∧ r.ok = b) ∧
    (∀ (r : BridgeResponse) (t : String) (e : Option String), r.ok = true →
      classifyEnvelope { r with error := e } t = .ok (r.data.getD Json.null)) ∧
    (∀ (r : BridgeResponse) (t : String) (d : Option Json), r.ok = false →
      classifyEnvelope { r with data := d } t = classifyEnvelope r t ∧
      ∃ m, classifyEnvelope r t = .error m) := by
  refine ⟨fun l b hok hd he hwt =>
    visitFields_lenient l none none none b (Or.inl ⟨rfl, hok⟩)
      (Or.inl ⟨rfl, hd⟩) (Or.inl ⟨rfl, he⟩) hwt,
    fun r t e hok => ?_, fun r t d hok => ?_⟩
  · simp [classifyEnvelope, hok]
  · refine ⟨by simp [classifyEnvelope, hok],
      (r.error.orElse fun _ => if t = "" then none else some t).getD
        "Unknown bridge error", ?_⟩
    simp [classifyEnvelope, hok]

/-- Witness for C10 (amended): a concrete lenient object with an unknown extra
field parses with `ok = true`; classification ignores a present error string
when `ok = true`. -/
theorem envelope_lenient_and_classification_witness :
    (∃ r, deserBridgeResponse (Json.obj
        [("ok", Json.bool true), ("extra", Json.num "1"), ("data", Json.str "v")]) =
      .ok r ∧ r.ok = true) ∧
    classifyEnvelope ⟨true, some (Json.str "v"), some "ignored"⟩ "t" =
      .ok (Json.str "v") :=
  ⟨envelope_lenient_and_classification.1
      [("ok", Json.bool true), ("extra", Json.num "1"), ("data", Json.str "v")]
      true rfl (by decide) (by decide) (by simp),
   envelope_lenient_and_classification.2.1
      ⟨true, some (Json.str "v"), none⟩ "t" (some "ignored") rfl⟩
